import Mathlib

/-!
Shallow embedding of `openraft/src/config.rs` (Raft runtime configuration):
the `Config` value object, its unit parsers (`parse_snapshot_policy`,
`parse_bytes_with_unit`), the builder, the validator `Config::validate`,
and the election-timeout randomizer, together with theorems settling the
specification claims about them.

Rust strings are embedded as `List Char`; Rust `u64` values as `Nat`
(the parsers enforce the `u64` range at the boundary, and none of the
embedded operations perform wrapping arithmetic on fields).
-/

/-- Log compaction and snapshot policy (`SnapshotPolicy` in config.rs).
One variant today: a snapshot is generated once the log has grown the
given number of logs since the last snapshot. -/
inductive SnapshotPolicy where
  | LogsSinceLast (n : Nat)
deriving DecidableEq

/-- Modelled from the spec: `ConfigError` lives in `crate::error`, outside
the provided source tree. Section 7 of the spec gives its taxonomy: the
three validation variants named in `Config::validate`, plus parse errors
raised during builder execution (malformed field value, carrying which
field failed and the offending raw text, and unrecognized override
tokens). -/
inductive ConfigError where
  | InvalidElectionTimeoutMinMax
  | ElectionTimeoutLessThanHeartBeatInterval
  | MaxPayloadEntriesTooSmall
  | MalformedValue (field : List Char) (raw : List Char)
  | UnrecognizedToken (key : List Char)
deriving DecidableEq

/-- The runtime configuration for a Raft node (`Config` in config.rs).
All numeric fields are `u64` in the source, embedded as `Nat`. -/
structure Config where
  cluster_name : List Char
  election_timeout_min : Nat
  election_timeout_max : Nat
  heartbeat_interval : Nat
  install_snapshot_timeout : Nat
  max_payload_entries : Nat
  replication_lag_threshold : Nat
  snapshot_policy : SnapshotPolicy
  snapshot_max_chunk_size : Nat
  max_applied_log_to_keep : Nat
deriving DecidableEq

/-- `true` exactly on the `error` constructor of `Except`. -/
def Except.isFailure : Except ε α → Bool
  | .error _ => true
  | .ok _ => false

/-- Embedding of Rust `str::split(c)` collected into a vector: splits at
every occurrence of the separator, keeping empty pieces, so the result is
always non-empty and has one more element than the number of separators. -/
def splitOnChar (sep : Char) : List Char → List (List Char)
  | [] => [[]]
  | c :: rest =>
    if c = sep then
      [] :: splitOnChar sep rest
    else
      match splitOnChar sep rest with
      | [] => [[c]]
      | p :: ps => (c :: p) :: ps

/-- Decimal value of a digit string, most significant digit first. -/
def digitsToNat (ds : List Char) : Nat :=
  ds.foldl (fun a c => a * 10 + (c.toNat - 48)) 0

/-- Largest value of a Rust `u64`. -/
def U64_MAX : Nat := 2 ^ 64 - 1

/-- Embedding of Rust `str::parse::<u64>()` (core `FromStr` for `u64`):
an optional leading `+` sign, then one or more ASCII digits, rejecting
anything else (a leading `-` is not a digit, hence rejected) and
rejecting values exceeding `u64::MAX` (the checked accumulation in core
overflows exactly when the final decimal value does). -/
def parse_u64 (cs : List Char) : Option Nat :=
  let ds := match cs with
    | '+' :: r => r
    | _ => cs
  if !ds.isEmpty && ds.all Char.isDigit then
    let n := digitsToNat ds
    if n ≤ U64_MAX then some n else none
  else
    none

/-- Error message of `parse_snapshot_policy` for a wrong token count or a
wrong keyword. -/
def snapshotPolicyGrammarMsg : List Char :=
  "snapshot policy should be in form of since_last:<num>".toList

/-- Error message propagated from a failed `u64` parse of the count. -/
def invalidU64Msg : List Char := "invalid u64 string".toList

/-- Embedding of `parse_snapshot_policy` in config.rs: split the input on
the colon; exactly two pieces are required, the first must be the literal
keyword and the second must parse as a `u64`. -/
def parse_snapshot_policy (src : List Char) : Except (List Char) SnapshotPolicy :=
  match splitOnChar ':' src with
  | [kw, num] =>
    if kw = "since_last".toList then
      match parse_u64 num with
      | some n => .ok (.LogsSinceLast n)
      | none => .error invalidU64Msg
    else
      .error snapshotPolicyGrammarMsg
  | _ => .error snapshotPolicyGrammarMsg

/-- Byte count of a magnitude suffix, matched on its lowercased text.
The empty suffix means a bare byte count; the binary family (KiB, MiB,
GiB, TiB, PiB) scales by powers of 1024 and the decimal family (KB, MB,
GB, TB, PB, also bare K, M, G, T, P) by powers of 1000. -/
def unitFactor : List Char → Option Nat
  | [] => some 1
  | ['b'] => some 1
  | ['k'] => some 1000
  | ['k', 'b'] => some 1000
  | ['k', 'i', 'b'] => some (1024)
  | ['m'] => some (1000 ^ 2)
  | ['m', 'b'] => some (1000 ^ 2)
  | ['m', 'i', 'b'] => some (1024 ^ 2)
  | ['g'] => some (1000 ^ 3)
  | ['g', 'b'] => some (1000 ^ 3)
  | ['g', 'i', 'b'] => some (1024 ^ 3)
  | ['t'] => some (1000 ^ 4)
  | ['t', 'b'] => some (1000 ^ 4)
  | ['t', 'i', 'b'] => some (1024 ^ 4)
  | ['p'] => some (1000 ^ 5)
  | ['p', 'b'] => some (1000 ^ 5)
  | ['p', 'i', 'b'] => some (1024 ^ 5)
  | _ => none

/-- Error message of the byte-size parser. -/
def byteUnitMsg : List Char := "invalid byte unit string".toList

/-- Modelled from the spec (section 4.1): `parse_bytes_with_unit` in
config.rs delegates to `byte_unit::Byte::from_str`, an external crate
absent from the source tree. Per the spec, the input is a numeric
integer-or-decimal number, optionally followed by whitespace and a
case-insensitive magnitude suffix from the binary or decimal unit
families; the output is the exact unsigned byte count; it fails when no
numeric digits lead the input or the suffix is unrecognized. The final
`as u64` cast in the source is embedded as reduction modulo `2 ^ 64`. -/
def parse_bytes_with_unit (src : List Char) : Except (List Char) Nat :=
  let intDigits := src.takeWhile Char.isDigit
  let rest := src.dropWhile Char.isDigit
  if intDigits.isEmpty then
    .error byteUnitMsg
  else
    let fracDigits := match rest with
      | '.' :: r => r.takeWhile Char.isDigit
      | _ => []
    let rest2 := match rest with
      | '.' :: r => r.dropWhile Char.isDigit
      | _ => rest
    let suffix := rest2.dropWhile (fun c => c == ' ')
    match unitFactor (suffix.map Char.toLower) with
    | none => .error byteUnitMsg
    | some factor =>
      let num := digitsToNat intDigits * 10 ^ fracDigits.length + digitsToNat fracDigits
      .ok (num * factor / 10 ^ fracDigits.length % 2 ^ 64)

/-- Embedding of `Config::validate` in config.rs: the three invariant
checks in source order, returning the first failure, or the input
unchanged when all pass. -/
def Config.validate (c : Config) : Except ConfigError Config :=
  if c.election_timeout_min ≥ c.election_timeout_max then
    .error .InvalidElectionTimeoutMinMax
  else if c.election_timeout_min ≤ c.heartbeat_interval then
    .error .ElectionTimeoutLessThanHeartBeatInterval
  else if c.max_payload_entries = 0 then
    .error .MaxPayloadEntriesTooSmall
  else
    .ok c

/-- Embedding of `Config::new_rand_election_timeout` in config.rs:
`thread_rng().gen_range(min..max)` draws uniformly from the half-open
range `[min, max)`. The random source is made explicit as a natural
number `r`; the draw is `min + r % (max - min)`, which for `min < max`
ranges over exactly `[min, max)` as `r` ranges over the states of the
source. -/
def Config.new_rand_election_timeout (c : Config) (r : Nat) : Nat :=
  c.election_timeout_min + r % (c.election_timeout_max - c.election_timeout_min)

deriving instance DecidableEq for Except

/-- Kebab-cased long-flag names of the ten `Config` fields, from the
`structopt(long)` attributes in config.rs. -/
def knownFlags : List (List Char) :=
  ["cluster-name".toList, "election-timeout-min".toList, "election-timeout-max".toList,
   "heartbeat-interval".toList, "install-snapshot-timeout".toList,
   "max-payload-entries".toList, "replication-lag-threshold".toList,
   "snapshot-policy".toList, "snapshot-max-chunk-size".toList,
   "max-applied-log-to-keep".toList]

/-- Modelled from the spec (section 4.2): per-field source resolution of
the builder (`structopt::from_iter`, an external crate absent from the
source tree). The raw string for a field is the explicit override when
present, else the named environment variable, else the hardcoded default
from the field attributes in config.rs. Overrides and environment are
embedded as association lists from names to raw values. -/
def resolveRaw (flag envName dflt : List Char)
    (ov env : List (List Char × List Char)) : List Char :=
  match List.lookup flag ov with
  | some v => v
  | none =>
    match List.lookup envName env with
    | some v => v
    | none => dflt

/-- A `u64`-typed field: resolve the raw string and parse it as a `u64`,
failing with an error naming the field and the offending raw text. -/
def u64Field (flag envName dflt : List Char)
    (ov env : List (List Char × List Char)) : Except ConfigError Nat :=
  let raw := resolveRaw flag envName dflt ov env
  match parse_u64 raw with
  | some n => .ok n
  | none => .error (.MalformedValue flag raw)

/-- The snapshot-policy field: resolve the raw string and parse it with
`parse_snapshot_policy`, failing with an error naming the field. -/
def policyField (flag envName dflt : List Char)
    (ov env : List (List Char × List Char)) : Except ConfigError SnapshotPolicy :=
  let raw := resolveRaw flag envName dflt ov env
  match parse_snapshot_policy raw with
  | .ok p => .ok p
  | .error _ => .error (.MalformedValue flag raw)

/-- The byte-size field: resolve the raw string and parse it with
`parse_bytes_with_unit`, failing with an error naming the field. -/
def bytesField (flag envName dflt : List Char)
    (ov env : List (List Char × List Char)) : Except ConfigError Nat :=
  let raw := resolveRaw flag envName dflt ov env
  match parse_bytes_with_unit raw with
  | .ok n => .ok n
  | .error _ => .error (.MalformedValue flag raw)

/-- Modelled from the spec (sections 4.2 and 7): the unvalidated builder
(`structopt::from_iter` in config.rs, an external crate absent from the
source tree). An override token whose key is not a known flag aborts the
build as a usage error; otherwise each field is resolved and converted
with its designated parser, any conversion failure aborting the whole
build. Flag names, environment variable names and default strings are
the `structopt` attributes of `Config` in config.rs. -/
def build_unvalidated (ov env : List (List Char × List Char)) :
    Except ConfigError Config :=
  match ov.find? (fun p => !(knownFlags.contains p.1)) with
  | some p => .error (.UnrecognizedToken p.1)
  | none => do
    let nm := resolveRaw "cluster-name".toList "RAFT_CLUSTER_NAME".toList
      "foo".toList ov env
    let etmin ← u64Field "election-timeout-min".toList "RAFT_ELECTION_TIMEOUT_MIN".toList
      "150".toList ov env
    let etmax ← u64Field "election-timeout-max".toList "RAFT_ELECTION_TIMEOUT_MAX".toList
      "300".toList ov env
    let hb ← u64Field "heartbeat-interval".toList "RAFT_HEARTBEAT_INTERVAL".toList
      "50".toList ov env
    let ist ← u64Field "install-snapshot-timeout".toList "RAFT_INSTALL_SNAPSHOT_TIMEOUT".toList
      "200".toList ov env
    let mpe ← u64Field "max-payload-entries".toList "RAFT_MAX_PAYLOAD_ENTRIES".toList
      "300".toList ov env
    let rlt ← u64Field "replication-lag-threshold".toList "RAFT_REPLICATION_LAG_THRESHOLD".toList
      "1000".toList ov env
    let sp ← policyField "snapshot-policy".toList "RAFT_SNAPSHOT_POLICY".toList
      "since_last:5000".toList ov env
    let smcs ← bytesField "snapshot-max-chunk-size".toList "RAFT_SNAPSHOT_MAX_CHUNK_SIZE".toList
      "3MiB".toList ov env
    let malk ← u64Field "max-applied-log-to-keep".toList "RAFT_MAX_APPLIED_LOG_TO_KEEP".toList
      "1000".toList ov env
    .ok ⟨nm, etmin, etmax, hb, ist, mpe, rlt, sp, smcs, malk⟩

/-- Embedding of `Config::build` in config.rs: run the builder on the
explicit source (and environment), then validate, so a caller never
receives an unvalidated instance. -/
def Config.build (ov env : List (List Char × List Char)) :
    Except ConfigError Config :=
  match build_unvalidated ov env with
  | .ok c => c.validate
  | .error e => .error e

/-- The `Config` produced by `Config::default` in config.rs (building
from an empty source): every field carries its hardcoded default. -/
def default_config : Config :=
  ⟨"foo".toList, 150, 300, 50, 200, 300, 1000, .LogsSinceLast 5000,
   3 * 1024 * 1024, 1000⟩

/-- Concrete `Config` with the four validation-relevant fields given and
every other field at its default. -/
def mkCfg (emin emax hb mpe : Nat) : Config :=
  ⟨"foo".toList, emin, emax, hb, 200, mpe, 1000, .LogsSinceLast 5000, 3145728, 1000⟩

/-- A `Config` agreeing with `default_config` on the four fields read by
`Config::validate` and differing on every other field. -/
def cfgVariantB : Config :=
  ⟨"bar".toList, 150, 300, 50, 999, 300, 7, .LogsSinceLast 1, 42, 3⟩

theorem find?_isSome_of_mem {α : Type} (p : α → Bool) (l : List α) (x : α)
    (hx : x ∈ l) (hpx : p x = true) : ∃ y, l.find? p = some y := by
  induction l with
  | nil => cases hx
  | cons a t ih =>
    by_cases hpa : p a = true
    · exact ⟨a, by simp [List.find?_cons_of_pos, hpa]⟩
    · cases hx with
      | head => exact absurd hpx hpa
      | tail _ ht =>
        obtain ⟨y, hy⟩ := ih ht
        refine ⟨y, ?_⟩
        rw [List.find?_cons_of_neg _ (by simpa using hpa)]
        exact hy

theorem validate_ok_iff (c c' : Config) :
    c.validate = .ok c' ↔
      c' = c ∧ c.election_timeout_min < c.election_timeout_max ∧
      c.heartbeat_interval < c.election_timeout_min ∧
      c.max_payload_entries ≠ 0 := by
  unfold Config.validate
  split_ifs with h1 h2 h3
  · constructor
    · intro h; exact h.elim
    · rintro ⟨rfl, h2', h3', h4'⟩; omega
  · constructor
    · intro h; exact h.elim
    · rintro ⟨rfl, h2', h3', h4'⟩; omega
  · constructor
    · intro h; exact h.elim
    · rintro ⟨rfl, h2', h3', h4'⟩; exact absurd h3 h4'
  · simp only [Except.ok.injEq]
    constructor
    · intro h; exact ⟨h.symm, by omega, by omega, h3⟩
    · intro h; exact h.1.symm

theorem build_eq_bind (ov env : List (List Char × List Char)) :
    Config.build ov env = (build_unvalidated ov env).bind Config.validate := by
  unfold Config.build
  cases build_unvalidated ov env <;> rfl

/-- C1: `Config::validate` checks the invariants in a fixed order and
returns only the first failure: `election_timeout_min ≥ election_timeout_max`
gives `InvalidElectionTimeoutMinMax`; otherwise
`election_timeout_min ≤ heartbeat_interval` gives
`ElectionTimeoutLessThanHeartBeatInterval`; otherwise
`max_payload_entries = 0` gives `MaxPayloadEntriesTooSmall`; otherwise the
input value is returned unchanged. -/
theorem validate_checks_invariants_in_order (c : Config) :
    (c.election_timeout_min ≥ c.election_timeout_max →
      c.validate = .error .InvalidElectionTimeoutMinMax) ∧
    (c.election_timeout_min < c.election_timeout_max →
      c.election_timeout_min ≤ c.heartbeat_interval →
      c.validate = .error .ElectionTimeoutLessThanHeartBeatInterval) ∧
    (c.election_timeout_min < c.election_timeout_max →
      c.heartbeat_interval < c.election_timeout_min →
      c.max_payload_entries = 0 →
      c.validate = .error .MaxPayloadEntriesTooSmall) ∧
    (c.election_timeout_min < c.election_timeout_max →
      c.heartbeat_interval < c.election_timeout_min →
      c.max_payload_entries ≠ 0 →
      c.validate = .ok c) := by
  unfold Config.validate
  refine ⟨fun h1 => ?_, fun h1 h2 => ?_, fun h1 h2 h3 => ?_, fun h1 h2 h3 => ?_⟩
  · rw [if_pos h1]
  · rw [if_neg (by omega), if_pos h2]
  · rw [if_neg (by omega), if_neg (by omega), if_pos h3]
  · rw [if_neg (by omega), if_neg (by omega), if_neg h3]

/-- Witness for C1: each of the four branches exercised on a concrete
config; the first two configs violate several invariants at once and
still report only the first failure in check order. -/
theorem validate_checks_invariants_in_order_witness :
    (mkCfg 10 5 10 0).validate = .error .InvalidElectionTimeoutMinMax ∧
    (mkCfg 40 100 50 0).validate = .error .ElectionTimeoutLessThanHeartBeatInterval ∧
    (mkCfg 100 200 50 0).validate = .error .MaxPayloadEntriesTooSmall ∧
    (mkCfg 150 300 50 300).validate = .ok (mkCfg 150 300 50 300) :=
  ⟨(validate_checks_invariants_in_order (mkCfg 10 5 10 0)).1 (by decide),
   (validate_checks_invariants_in_order (mkCfg 40 100 50 0)).2.1 (by decide) (by decide),
   (validate_checks_invariants_in_order (mkCfg 100 200 50 0)).2.2.1
     (by decide) (by decide) (by decide),
   (validate_checks_invariants_in_order (mkCfg 150 300 50 300)).2.2.2
     (by decide) (by decide) (by decide)⟩

/-- C2 counterexample: the claim says every config with
`election_timeout_min ≤ heartbeat_interval` fails with
`ElectionTimeoutLessThanHeartBeatInterval` regardless of the min/max
relationship, but the min/max check runs first: for
min = 10, max = 5, heartbeat = 10 the validator returns
`InvalidElectionTimeoutMinMax` instead. -/
theorem validate_min_le_heartbeat_counterexample :
    (mkCfg 10 5 10 300).election_timeout_min ≤ (mkCfg 10 5 10 300).heartbeat_interval ∧
    (mkCfg 10 5 10 300).validate ≠ .error .ElectionTimeoutLessThanHeartBeatInterval ∧
    (mkCfg 10 5 10 300).validate = .error .InvalidElectionTimeoutMinMax := by decide

/-- C2 amended: for every config with
`election_timeout_min < election_timeout_max` (so the first check passes)
and `election_timeout_min ≤ heartbeat_interval`, validation fails with
`ElectionTimeoutLessThanHeartBeatInterval`. -/
theorem validate_min_le_heartbeat_amended (c : Config)
    (h1 : c.election_timeout_min < c.election_timeout_max)
    (h2 : c.election_timeout_min ≤ c.heartbeat_interval) :
    c.validate = .error .ElectionTimeoutLessThanHeartBeatInterval := by
  unfold Config.validate
  rw [if_neg (by omega), if_pos h2]

/-- Witness for the amended C2 at min = 40, max = 100, heartbeat = 50. -/
theorem validate_min_le_heartbeat_amended_witness :
    (mkCfg 40 100 50 300).validate = .error .ElectionTimeoutLessThanHeartBeatInterval :=
  validate_min_le_heartbeat_amended (mkCfg 40 100 50 300) (by decide) (by decide)

/-- C3: building from an empty override source with no environment
overrides succeeds and yields exactly the documented defaults, with
`snapshot_max_chunk_size` equal to 3 binary megabytes. -/
theorem build_empty_source_yields_defaults :
    Config.build [] [] = .ok
      ⟨"foo".toList, 150, 300, 50, 200, 300, 1000, .LogsSinceLast 5000,
       3 * 1024 * 1024, 1000⟩ ∧
    (3 * 1024 * 1024 : Nat) = 3145728 := by decide

/-- C4: `Config::build` returns either a validated `Config` or a
`ConfigError`: every successful build has passed validation; an override
token with an unrecognized key aborts the whole build as a usage error;
and concrete per-field conversion failures (malformed snapshot policy,
malformed byte size, malformed integer) abort the build with an error
naming the failing field and the offending raw value, never falling back
to a default. -/
theorem build_surfaces_errors (ov env : List (List Char × List Char)) :
    ((∃ c, Config.build ov env = .ok c) ∨ (∃ e, Config.build ov env = .error e)) ∧
    (∀ c, Config.build ov env = .ok c → c.validate = .ok c) ∧
    (∀ p ∈ ov, knownFlags.contains p.1 = false →
      ∃ q, Config.build ov env = .error (.UnrecognizedToken q)) ∧
    Config.build [("snapshot-policy".toList, "foo:1".toList)] [] =
      .error (.MalformedValue "snapshot-policy".toList "foo:1".toList) ∧
    Config.build [("snapshot-max-chunk-size".toList, "abc".toList)] [] =
      .error (.MalformedValue "snapshot-max-chunk-size".toList "abc".toList) ∧
    Config.build [("election-timeout-min".toList, "12x".toList)] [] =
      .error (.MalformedValue "election-timeout-min".toList "12x".toList) := by
  refine ⟨?_, ?_, ?_, by decide, by decide, by decide⟩
  · cases hb : Config.build ov env with
    | ok c => exact .inl ⟨c, rfl⟩
    | error e => exact .inr ⟨e, rfl⟩
  · intro c h
    rw [build_eq_bind] at h
    cases hbu : build_unvalidated ov env with
    | ok c0 =>
      rw [hbu] at h
      simp only [Except.bind] at h
      obtain ⟨rfl, -, -, -⟩ := (validate_ok_iff c0 c).mp h
      exact h
    | error e =>
      rw [hbu] at h
      simp only [Except.bind] at h
      exact Except.noConfusion h
  · intro p hp hflag
    obtain ⟨q, hq⟩ := find?_isSome_of_mem
      (fun r => !(knownFlags.contains r.1)) ov p hp
      (by simp only [hflag, Bool.not_false])
    refine ⟨q.1, ?_⟩
    have hbu : build_unvalidated ov env = .error (.UnrecognizedToken q.1) := by
      unfold build_unvalidated
      rw [hq]
    rw [build_eq_bind, hbu]
    rfl

/-- Witness for C4: the successful-build conjunct at the default config
and the unrecognized-token conjunct at a concrete bad override. -/
theorem build_surfaces_errors_witness :
    default_config.validate = .ok default_config ∧
    ∃ q, Config.build [("bogus-flag".toList, "1".toList)] [] =
      .error (.UnrecognizedToken q) :=
  ⟨(build_surfaces_errors [] []).2.1 default_config (by decide),
   (build_surfaces_errors [("bogus-flag".toList, "1".toList)] []).2.2.1
     ("bogus-flag".toList, "1".toList) (by decide) (by decide)⟩

/-- C5: the snapshot-policy parser succeeds exactly when the input splits
on the colon into two tokens, the first being the literal keyword and the
second a valid `u64`, returning `LogsSinceLast` of that count; in
particular the four concrete examples from the spec behave as stated. -/
theorem snapshot_policy_grammar :
    (∀ s n, parse_snapshot_policy s = .ok (.LogsSinceLast n) ↔
      ∃ num, splitOnChar ':' s = ["since_last".toList, num] ∧
        parse_u64 num = some n) ∧
    parse_snapshot_policy "since_last:5000".toList = .ok (.LogsSinceLast 5000) ∧
    (parse_snapshot_policy "since_last:".toList).isFailure = true ∧
    (parse_snapshot_policy "foo:5000".toList).isFailure = true ∧
    (parse_snapshot_policy "since_last:abc".toList).isFailure = true := by
  refine ⟨?_, by decide, by decide, by decide, by decide⟩
  intro s n
  constructor
  · intro h
    unfold parse_snapshot_policy at h
    split at h
    · rename_i kw num heq
      split at h
      · rename_i hkw
        split at h
        · rename_i m hm
          injection h with h1
          injection h1 with h2
          subst h2
          exact ⟨num, by rw [heq, hkw], hm⟩
        · exact Except.noConfusion h
      · exact Except.noConfusion h
    · exact Except.noConfusion h
  · rintro ⟨num, hsplit, hp⟩
    unfold parse_snapshot_policy
    rw [hsplit]
    simp [hp]

/-- C6: the byte-size parser maps a numeric count with an optional
case-insensitive magnitude suffix to the exact byte count: `3MiB` (in any
letter case) is 3145728 bytes, the decimal unit `3MB` is 3000000 bytes, a
bare count passes through, a string with no numeric digits fails, and an
unrecognized suffix fails. -/
theorem parse_bytes_with_unit_spec :
    parse_bytes_with_unit "3MiB".toList = .ok 3145728 ∧
    parse_bytes_with_unit "3mib".toList = .ok 3145728 ∧
    parse_bytes_with_unit "3MB".toList = .ok 3000000 ∧
    parse_bytes_with_unit "300".toList = .ok 300 ∧
    parse_bytes_with_unit "5.3 KB".toList = .ok 5300 ∧
    (parse_bytes_with_unit "abc".toList).isFailure = true ∧
    (parse_bytes_with_unit "3XYZ".toList).isFailure = true := by decide

/-- C7: for every validated config and every state of the random source,
the randomized election timeout lies in the half-open window
`[election_timeout_min, election_timeout_max)`, and the source state 0
shows `election_timeout_min` itself is attainable. -/
theorem new_rand_election_timeout_bounds (c : Config) (r : Nat)
    (h : c.validate = .ok c) :
    c.election_timeout_min ≤ c.new_rand_election_timeout r ∧
    c.new_rand_election_timeout r < c.election_timeout_max ∧
    c.new_rand_election_timeout 0 = c.election_timeout_min := by
  have hlt : c.election_timeout_min < c.election_timeout_max :=
    ((validate_ok_iff c c).mp h).2.1
  have hr : r % (c.election_timeout_max - c.election_timeout_min) <
      c.election_timeout_max - c.election_timeout_min :=
    Nat.mod_lt _ (by omega)
  unfold Config.new_rand_election_timeout
  exact ⟨Nat.le_add_right _ _, by omega, by simp⟩

/-- Witness for C7 at the default config and source state 12345. -/
theorem new_rand_election_timeout_bounds_witness :
    default_config.election_timeout_min ≤
      default_config.new_rand_election_timeout 12345 ∧
    default_config.new_rand_election_timeout 12345 <
      default_config.election_timeout_max ∧
    default_config.new_rand_election_timeout 0 =
      default_config.election_timeout_min :=
  new_rand_election_timeout_bounds default_config 12345 (by decide)

/-- C8: the outcome of `Config::validate` depends only on the two
election-timeout bounds, the heartbeat interval and the payload-entry
bound: two configs agreeing on those four fields either both validate
(each returning itself) or both fail with the same error variant. -/
theorem validate_depends_only_on_timing_fields (cA cB : Config)
    (h1 : cA.election_timeout_min = cB.election_timeout_min)
    (h2 : cA.election_timeout_max = cB.election_timeout_max)
    (h3 : cA.heartbeat_interval = cB.heartbeat_interval)
    (h4 : cA.max_payload_entries = cB.max_payload_entries) :
    (cA.validate = .ok cA ∧ cB.validate = .ok cB) ∨
    (∃ e, cA.validate = .error e ∧ cB.validate = .error e) := by
  unfold Config.validate
  rw [h1, h2, h3, h4]
  split_ifs
  · exact .inr ⟨_, rfl, rfl⟩
  · exact .inr ⟨_, rfl, rfl⟩
  · exact .inr ⟨_, rfl, rfl⟩
  · exact .inl ⟨rfl, rfl⟩

/-- Witness for C8: the default config and a config differing from it on
every field `Config::validate` does not read. -/
theorem validate_depends_only_on_timing_fields_witness :
    (default_config.validate = .ok default_config ∧
      cfgVariantB.validate = .ok cfgVariantB) ∨
    (∃ e, default_config.validate = .error e ∧ cfgVariantB.validate = .error e) :=
  validate_depends_only_on_timing_fields default_config cfgVariantB rfl rfl rfl rfl

/-- C9: the default-constructed config (min 150, max 300, heartbeat 50,
payload 300) satisfies all three validation invariants, so validation
returns it unchanged and the empty-source build succeeds with it. -/
theorem default_config_validates :
    default_config.election_timeout_min = 150 ∧
    default_config.election_timeout_max = 300 ∧
    default_config.heartbeat_interval = 50 ∧
    default_config.max_payload_entries = 300 ∧
    default_config.validate = .ok default_config ∧
    Config.build [] [] = .ok default_config := by decide

/-- C10: the count token of the snapshot policy undergoes exact unsigned
64-bit parsing with no wraparound: every accepted value is at most
`u64::MAX`; `2 ^ 64` (one past `u64::MAX`) is rejected rather than
wrapped to `LogsSinceLast 0`; a leading minus sign is rejected; and
`u64::MAX` itself and a zero-padded numeral parse to their exact decimal
values. -/
theorem parse_u64_exact_no_wraparound :
    (∀ cs n, parse_u64 cs = some n → n ≤ U64_MAX) ∧
    (parse_snapshot_policy "since_last:18446744073709551616".toList).isFailure = true ∧
    (parse_snapshot_policy "since_last:-5".toList).isFailure = true ∧
    parse_snapshot_policy "since_last:18446744073709551615".toList =
      .ok (.LogsSinceLast 18446744073709551615) ∧
    parse_snapshot_policy "since_last:0042".toList = .ok (.LogsSinceLast 42) := by
  refine ⟨?_, by decide, by decide, by decide, by decide⟩
  intro cs n h
  simp only [parse_u64] at h
  split at h
  · split at h
    · rename_i hle
      injection h with h1
      omega
    · exact Option.noConfusion h
  · exact Option.noConfusion h

/-- Witness for C10: the bound conjunct applied at the numeral 5000. -/
theorem parse_u64_exact_no_wraparound_witness : (5000 : Nat) ≤ U64_MAX :=
  parse_u64_exact_no_wraparound.1 "5000".toList 5000 (by decide)
